import Mathlib

/-!
Verification of the single-slot shared-memory channel implemented in
`ShareMemoryCPP/ShareMemoryManager.cpp` (class `SharedMemory::ShareMemoryManager`).

The shallow embedding models one initialized manager instance: the mapped
header (`SharedMemoryHeader`), the payload region bytes, and the private
`m_frameId` counter.  All 32-bit fields are `Nat` reduced mod `2^32` exactly
where the C++ `uint32_t` arithmetic wraps; `size_t` values (the computed
payload size on 64-bit Windows) are reduced mod `2^64`.  The cross-process
mutex is assumed acquired (its timeout path returns failure without touching
state, which is indistinguishable from not being scheduled); logging is
ignored.
-/

namespace ShareMemory

/-- `2^32`, the modulus of `uint32_t` arithmetic. -/
def U32 : Nat := 4294967296

/-- `2^64`, the modulus of `size_t` arithmetic on 64-bit Windows. -/
def U64 : Nat := 18446744073709551616

/-- Magic sentinel written by `Initialize` and checked by `TryReadData`. -/
def MAGIC : Nat := 0x12345678

/-- `MemoryStatus::Empty`. -/
def statusEmpty : Nat := 0

/-- `MemoryStatus::Writing`. -/
def statusWriting : Nat := 1

/-- `MemoryStatus::Ready`. -/
def statusReady : Nat := 2

/-- The packed `SharedMemoryHeader` struct: nine `uint32_t` fields followed by
a 128-byte error-message buffer. -/
structure SharedMemoryHeader where
  Magic : Nat
  Status : Nat
  DataSize : Nat
  Checksum : Nat
  FrameId : Nat
  DataType : Nat
  Width : Nat
  Height : Nat
  Reserved : Nat
  ErrorMsg : List Nat
  deriving Repr, DecidableEq

/-- One initialized `ShareMemoryManager`: mapped header, payload-region bytes
(`m_pData`, of length `capacity = m_size - sizeof(SharedMemoryHeader)`), and
the private `m_frameId` counter. -/
structure ManagerState where
  header : SharedMemoryHeader
  data : List Nat
  frameId : Nat
  capacity : Nat
  deriving Repr, DecidableEq

/-- Header contents established by `Initialize` (and by `ClearMemory`). -/
def initHeader : SharedMemoryHeader :=
  { Magic := MAGIC, Status := statusEmpty, DataSize := 0, Checksum := 0,
    FrameId := 0, DataType := 0, Width := 0, Height := 0, Reserved := 0,
    ErrorMsg := List.replicate 128 0 }

/-- State right after a successful `Initialize` of a fresh zero-filled mapping
with payload capacity `cap`. -/
def initState (cap : Nat) : ManagerState :=
  { header := initHeader, data := List.replicate cap 0, frameId := 0, capacity := cap }

/-- One step of `CalculateChecksum`:
`checksum = ((checksum << 5) + checksum) + data[i]` in `uint32_t` arithmetic. -/
def checksumStep (h b : Nat) : Nat := ((h <<< 5) + h + b) % U32

/-- `ShareMemoryManager::CalculateChecksum`: fold `checksumStep` over the
payload bytes starting from 0. -/
def calculateChecksum (data : List Nat) : Nat := data.foldl checksumStep 0

/-- The size computation at the top of `WriteData`: Image bytes are
`width*height*channels` (all `uint32_t`, wrapping), PointCloud bytes are
`width * sizeof(float) * dimensions` (widened to `size_t`), HeightMap bytes
are `width*height` (`uint32_t`, wrapping) times `sizeof(float)`.  Any other
`dataType` is rejected (`none`). -/
def calculateSize (dataType width height channels dimensions : Nat) : Option Nat :=
  if dataType = 0 then some (width * height % U32 * channels % U32)
  else if dataType = 1 then some (width * 4 * dimensions % U64)
  else if dataType = 2 then some (width * height % U32 * 4)
  else none

/-- Result of `WriteData` / `ClearMemory`: the returned `bool` and the
manager state afterwards. -/
structure WriteResult where
  ok : Bool
  state : ManagerState
  deriving Repr, DecidableEq

/-- `ShareMemoryManager::WriteData(data, dataType, width, height, channels,
dimensions)`.  Computes the shape-implied size (failing on an invalid type),
rejects sizes over capacity, rejects a non-Empty slot, and otherwise stores
`DataSize = (uint32_t)size`, `FrameId = ++m_frameId`, the metadata fields
(`Reserved` holds `channels` for images, `dimensions` otherwise), copies
`size` payload bytes, and stores the checksum over those bytes with status
`Ready`. -/
def writeData (s : ManagerState) (data : List Nat)
    (dataType width height channels dimensions : Nat) : WriteResult :=
  match calculateSize dataType width height channels dimensions with
  | none => ⟨false, s⟩
  | some size =>
    if s.capacity < size then ⟨false, s⟩
    else if s.header.Status ≠ statusEmpty then ⟨false, s⟩
    else
      let fid := (s.frameId + 1) % U32
      ⟨true,
        { header :=
            { Magic := s.header.Magic, Status := statusReady,
              DataSize := size % U32,
              Checksum := calculateChecksum (data.take size),
              FrameId := fid, DataType := dataType,
              Width := width, Height := height,
              Reserved := if dataType = 0 then channels else dimensions,
              ErrorMsg := s.header.ErrorMsg },
          data := data.take size ++ s.data.drop size,
          frameId := fid,
          capacity := s.capacity }⟩

/-- Result of `TryReadData`: the returned `bool`, the manager state
afterwards, and the caller's four out-parameters (`buffer`, `dataType`,
`width`, `height`) afterwards. -/
structure ReadResult where
  ok : Bool
  state : ManagerState
  buffer : List Nat
  dataType : Nat
  width : Nat
  height : Nat
  deriving Repr, DecidableEq

/-- `ShareMemoryManager::TryReadData(buffer, dataType, width, height)`.
Fails on a bad magic or a non-Ready status without touching the
out-parameters; otherwise resizes `buffer` to `DataSize`, copies the payload
out, and fails on a checksum mismatch (leaving the header untouched) or
succeeds, filling the metadata out-parameters and setting status `Empty`. -/
def tryReadData (s : ManagerState) (buffer : List Nat)
    (dataType width height : Nat) : ReadResult :=
  if s.header.Magic ≠ MAGIC then ⟨false, s, buffer, dataType, width, height⟩
  else if s.header.Status ≠ statusReady then ⟨false, s, buffer, dataType, width, height⟩
  else if calculateChecksum (s.data.take s.header.DataSize) ≠ s.header.Checksum then
    ⟨false, s, s.data.take s.header.DataSize, dataType, width, height⟩
  else
    ⟨true,
      { s with header := { s.header with Status := statusEmpty } },
      s.data.take s.header.DataSize,
      s.header.DataType, s.header.Width, s.header.Height⟩

/-- `ShareMemoryManager::ClearMemory` on an initialized instance: rewrites
every header field to its initial value, resets `m_frameId`, and leaves the
payload region untouched. -/
def clearMemory (s : ManagerState) : WriteResult :=
  ⟨true, { header := initHeader, data := s.data, frameId := 0, capacity := s.capacity }⟩

/-- The checksum algorithm as the specification words it:
`hash = hash*33 + byte`, seed 0, 32-bit wraparound. -/
def checksumSpec (data : List Nat) : Nat :=
  data.foldl (fun h b => (h * 33 + b) % U32) 0

end ShareMemory

namespace ShareMemory

/-- C7: `CalculateChecksum` equals the left fold with step
`h ↦ h*33 + b` in 32-bit wraparound arithmetic, seed 0. -/
theorem calculateChecksum_eq_spec (data : List Nat) :
    calculateChecksum data = checksumSpec data := by
  have hstep : checksumStep = fun h b => (h * 33 + b) % U32 := by
    funext h b
    simp only [checksumStep, Nat.shiftLeft_eq]
    congr 1
  simp [calculateChecksum, checksumSpec, hstep]

/-- C8: `ClearMemory` succeeds from any state and leaves the header in the
initial state (status Empty, FrameId 0, DataSize 0, checksum 0, metadata
zeroed, error message zeroed), resets `m_frameId`, and does not erase the
payload bytes. -/
theorem clearMemory_resets (s : ManagerState) :
    (clearMemory s).ok = true ∧
    (clearMemory s).state.header.Magic = MAGIC ∧
    (clearMemory s).state.header.Status = statusEmpty ∧
    (clearMemory s).state.header.DataSize = 0 ∧
    (clearMemory s).state.header.Checksum = 0 ∧
    (clearMemory s).state.header.FrameId = 0 ∧
    (clearMemory s).state.header.DataType = 0 ∧
    (clearMemory s).state.header.Width = 0 ∧
    (clearMemory s).state.header.Height = 0 ∧
    (clearMemory s).state.header.Reserved = 0 ∧
    (clearMemory s).state.header.ErrorMsg = List.replicate 128 0 ∧
    (clearMemory s).state.data = s.data ∧
    (clearMemory s).state.frameId = 0 := by
  simp [clearMemory, initHeader]

/-- C3: whenever the slot status is not Empty, `WriteData` returns failure
and the entire state — every header field and the payload bytes — is
unchanged. -/
theorem writeData_nonEmpty_fails (s : ManagerState) (data : List Nat)
    (dataType width height channels dimensions : Nat)
    (hstat : s.header.Status ≠ statusEmpty) :
    (writeData s data dataType width height channels dimensions).ok = false ∧
    (writeData s data dataType width height channels dimensions).state = s := by
  unfold writeData
  cases hcs : calculateSize dataType width height channels dimensions with
  | none => exact ⟨rfl, rfl⟩
  | some size =>
    simp only
    split_ifs with hcap
    · exact ⟨rfl, rfl⟩
    · exact ⟨rfl, rfl⟩

/-- A concrete state whose slot holds an unread Ready frame. -/
def readyExample : ManagerState :=
  { header := { initHeader with Status := statusReady }, data := [7], frameId := 3, capacity := 1 }

/-- Witness for C3 at a concrete Ready state. -/
theorem writeData_nonEmpty_fails_witness :
    readyExample.header.Status ≠ statusEmpty ∧
    ((writeData readyExample [9] 0 1 1 1 3).ok = false ∧
     (writeData readyExample [9] 0 1 1 1 3).state = readyExample) :=
  ⟨by decide, writeData_nonEmpty_fails readyExample [9] 0 1 1 1 3 (by decide)⟩

/-- C10: for any `dataType` other than 0 (Image), 1 (PointCloud) or
2 (HeightMap), `WriteData` returns failure and leaves the state unchanged. -/
theorem writeData_invalidType_fails (s : ManagerState) (data : List Nat)
    (dataType width height channels dimensions : Nat)
    (h0 : dataType ≠ 0) (h1 : dataType ≠ 1) (h2 : dataType ≠ 2) :
    (writeData s data dataType width height channels dimensions).ok = false ∧
    (writeData s data dataType width height channels dimensions).state = s := by
  unfold writeData
  have hcs : calculateSize dataType width height channels dimensions = none := by
    simp [calculateSize, h0, h1, h2]
  rw [hcs]
  exact ⟨rfl, rfl⟩

/-- Witness for C10 at `dataType = 7`. -/
theorem writeData_invalidType_fails_witness :
    ((7 : Nat) ≠ 0 ∧ (7 : Nat) ≠ 1 ∧ (7 : Nat) ≠ 2) ∧
    ((writeData (initState 4) [1, 2] 7 1 2 1 3).ok = false ∧
     (writeData (initState 4) [1, 2] 7 1 2 1 3).state = initState 4) :=
  ⟨⟨by decide, by decide, by decide⟩,
   writeData_invalidType_fails (initState 4) [1, 2] 7 1 2 1 3
     (by decide) (by decide) (by decide)⟩

/-- C4: on a Ready slot whose stored checksum disagrees with the checksum
recomputed over the copied-out bytes, `TryReadData` fails and leaves the
state — in particular the status, which stays Ready — unchanged. -/
theorem tryReadData_checksumMismatch_staysReady (s : ManagerState)
    (buffer : List Nat) (dataType width height : Nat)
    (hmagic : s.header.Magic = MAGIC)
    (hready : s.header.Status = statusReady)
    (hmm : calculateChecksum (s.data.take s.header.DataSize) ≠ s.header.Checksum) :
    (tryReadData s buffer dataType width height).ok = false ∧
    (tryReadData s buffer dataType width height).state = s ∧
    (tryReadData s buffer dataType width height).state.header.Status = statusReady := by
  unfold tryReadData
  rw [if_neg (by simp [hmagic]), if_neg (by simp [hready]), if_pos hmm]
  exact ⟨rfl, rfl, hready⟩

/-- A concrete Ready state whose stored checksum (999) disagrees with the
checksum of its one-byte payload `[5]` (which is 5). -/
def corruptExample : ManagerState :=
  { header := { initHeader with Status := statusReady, DataSize := 1, Checksum := 999 },
    data := [5], frameId := 1, capacity := 1 }

/-- Witness for C4 at `corruptExample`. -/
theorem tryReadData_checksumMismatch_staysReady_witness :
    (corruptExample.header.Magic = MAGIC ∧
     corruptExample.header.Status = statusReady ∧
     calculateChecksum (corruptExample.data.take corruptExample.header.DataSize) ≠
       corruptExample.header.Checksum) ∧
    ((tryReadData corruptExample [] 0 0 0).ok = false ∧
     (tryReadData corruptExample [] 0 0 0).state = corruptExample ∧
     (tryReadData corruptExample [] 0 0 0).state.header.Status = statusReady) :=
  ⟨⟨by decide, by decide, by decide⟩,
   tryReadData_checksumMismatch_staysReady corruptExample [] 0 0 0
     (by decide) (by decide) (by decide)⟩

/-- C9: on a checksum mismatch, `TryReadData` has already resized the
caller's buffer to `DataSize` and overwritten it with the stored (corrupted)
payload bytes, while the `dataType`, `width` and `height` out-parameters are
returned exactly as the caller passed them. -/
theorem tryReadData_checksumMismatch_outputs (s : ManagerState)
    (buffer : List Nat) (dataType width height : Nat)
    (hmagic : s.header.Magic = MAGIC)
    (hready : s.header.Status = statusReady)
    (hds : s.header.DataSize ≤ s.data.length)
    (hmm : calculateChecksum (s.data.take s.header.DataSize) ≠ s.header.Checksum) :
    (tryReadData s buffer dataType width height).ok = false ∧
    (tryReadData s buffer dataType width height).buffer =
      s.data.take s.header.DataSize ∧
    (tryReadData s buffer dataType width height).buffer.length = s.header.DataSize ∧
    (tryReadData s buffer dataType width height).dataType = dataType ∧
    (tryReadData s buffer dataType width height).width = width ∧
    (tryReadData s buffer dataType width height).height = height := by
  unfold tryReadData
  rw [if_neg (by simp [hmagic]), if_neg (by simp [hready]), if_pos hmm]
  refine ⟨rfl, rfl, ?_, rfl, rfl, rfl⟩
  simpa using hds

/-- A second concrete corrupted Ready state, for the C9 witness: stored
checksum 123 against payload bytes `[8, 9]`. -/
def corruptExample2 : ManagerState :=
  { header := { initHeader with Status := statusReady, DataSize := 2, Checksum := 123 },
    data := [8, 9], frameId := 1, capacity := 2 }

/-- Witness for C9 at `corruptExample2`. -/
theorem tryReadData_checksumMismatch_outputs_witness :
    (corruptExample2.header.Magic = MAGIC ∧
     corruptExample2.header.Status = statusReady ∧
     corruptExample2.header.DataSize ≤ corruptExample2.data.length ∧
     calculateChecksum (corruptExample2.data.take corruptExample2.header.DataSize) ≠
       corruptExample2.header.Checksum) ∧
    ((tryReadData corruptExample2 [42] 5 6 7).ok = false ∧
     (tryReadData corruptExample2 [42] 5 6 7).buffer =
       corruptExample2.data.take corruptExample2.header.DataSize ∧
     (tryReadData corruptExample2 [42] 5 6 7).buffer.length =
       corruptExample2.header.DataSize ∧
     (tryReadData corruptExample2 [42] 5 6 7).dataType = 5 ∧
     (tryReadData corruptExample2 [42] 5 6 7).width = 6 ∧
     (tryReadData corruptExample2 [42] 5 6 7).height = 7) :=
  ⟨⟨by decide, by decide, by decide, by decide⟩,
   tryReadData_checksumMismatch_outputs corruptExample2 [42] 5 6 7
     (by decide) (by decide) (by decide) (by decide)⟩

/-! ### Checksum injectivity under single-byte corruption (C6) -/

/-- The tail of `CalculateChecksum`: fold `checksumStep` from an arbitrary
accumulator, as happens after a prefix of the payload has been absorbed. -/
def checksumFrom (h : Nat) (data : List Nat) : Nat := data.foldl checksumStep h

theorem calculateChecksum_eq_from (l : List Nat) :
    calculateChecksum l = checksumFrom 0 l := rfl

theorem checksumFrom_cons (h b : Nat) (l : List Nat) :
    checksumFrom h (b :: l) = checksumFrom (checksumStep h b) l := rfl

theorem checksumFrom_append (h : Nat) (l1 l2 : List Nat) :
    checksumFrom h (l1 ++ l2) = checksumFrom (checksumFrom h l1) l2 :=
  List.foldl_append ..

theorem U32_pos : 0 < U32 := by norm_num [U32]

theorem checksumStep_lt (h b : Nat) : checksumStep h b < U32 :=
  Nat.mod_lt _ U32_pos

theorem checksumStep_linear (h b : Nat) : checksumStep h b = (33 * h + b) % U32 := by
  unfold checksumStep
  rw [Nat.shiftLeft_eq]
  congr 1
  ring

theorem gcd_U32_33 : Nat.gcd U32 33 = 1 := by
  have h2 : U32 = 2 ^ 32 := by norm_num [U32]
  have hco : Nat.Coprime 2 33 := by decide
  have := hco.pow_left 32
  rw [h2]
  exact this

/-- `checksumStep` is injective in the accumulator: 33 is invertible mod `2^32`. -/
theorem checksumStep_acc_inj (h1 h2 b : Nat) (hl1 : h1 < U32) (hl2 : h2 < U32)
    (heq : checksumStep h1 b = checksumStep h2 b) : h1 = h2 := by
  rw [checksumStep_linear, checksumStep_linear] at heq
  have hmod : 33 * h1 + b ≡ 33 * h2 + b [MOD U32] := heq
  have h33 : 33 * h1 ≡ 33 * h2 [MOD U32] := Nat.ModEq.add_right_cancel' b hmod
  have hmeq : h1 ≡ h2 [MOD U32] := Nat.ModEq.cancel_left_of_coprime gcd_U32_33 h33
  calc h1 = h1 % U32 := (Nat.mod_eq_of_lt hl1).symm
    _ = h2 % U32 := hmeq
    _ = h2 := Nat.mod_eq_of_lt hl2

/-- Two distinct bytes below `2^32` produce distinct steps from the same
accumulator. -/
theorem checksumStep_byte_inj (h b1 b2 : Nat) (hb1 : b1 < U32) (hb2 : b2 < U32)
    (hne : b1 ≠ b2) : checksumStep h b1 ≠ checksumStep h b2 := by
  intro heq
  rw [checksumStep_linear, checksumStep_linear] at heq
  have hmod : 33 * h + b1 ≡ 33 * h + b2 [MOD U32] := heq
  have hb : b1 ≡ b2 [MOD U32] := Nat.ModEq.add_left_cancel' (33 * h) hmod
  exact hne (by rwa [Nat.ModEq, Nat.mod_eq_of_lt hb1, Nat.mod_eq_of_lt hb2] at hb)

theorem checksumFrom_lt (l : List Nat) (h : Nat) (hh : h < U32) :
    checksumFrom h l < U32 := by
  induction l generalizing h with
  | nil => exact hh
  | cons b t ih => exact ih _ (checksumStep_lt _ _)

/-- Folding the same suffix from two distinct bounded accumulators keeps them
distinct. -/
theorem checksumFrom_inj (l : List Nat) (h1 h2 : Nat) (hl1 : h1 < U32)
    (hl2 : h2 < U32) (hne : h1 ≠ h2) :
    checksumFrom h1 l ≠ checksumFrom h2 l := by
  induction l generalizing h1 h2 with
  | nil => exact hne
  | cons b t ih =>
    exact ih _ _ (checksumStep_lt _ _) (checksumStep_lt _ _)
      (fun he => hne (checksumStep_acc_inj h1 h2 b hl1 hl2 he))

/-- Changing one byte of a payload (to a different value below `2^32`)
always changes `CalculateChecksum`. -/
theorem calculateChecksum_set_ne (l : List Nat) (i b2 : Nat) (hi : i < l.length)
    (hb1 : l.get ⟨i, hi⟩ < U32) (hb2 : b2 < U32) (hne : b2 ≠ l.get ⟨i, hi⟩) :
    calculateChecksum (l.set i b2) ≠ calculateChecksum l := by
  have hset : l.set i b2 = l.take i ++ b2 :: l.drop (i + 1) :=
    List.set_eq_take_cons_drop b2 hi
  have hl : l = l.take i ++ l.get ⟨i, hi⟩ :: l.drop (i + 1) := by
    conv_lhs => rw [← List.take_append_drop i l]
    congr 1
    rw [List.drop_eq_getElem_cons hi]
    rfl
  rw [hset]
  conv_rhs => rw [hl]
  rw [calculateChecksum_eq_from, calculateChecksum_eq_from,
    checksumFrom_append, checksumFrom_append, checksumFrom_cons, checksumFrom_cons]
  exact checksumFrom_inj _ _ _ (checksumStep_lt _ _) (checksumStep_lt _ _)
    (checksumStep_byte_inj _ _ _ hb2 hb1 hne)

/-- `take` and `set` commute on lists. -/
theorem take_set_comm (a : Nat) :
    ∀ (l : List Nat) (i n : Nat), (l.set i a).take n = (l.take n).set i a
  | [], _, _ => by simp
  | _ :: _, 0, 0 => rfl
  | _ :: _, 0, _ + 1 => rfl
  | _ :: _, _ + 1, 0 => rfl
  | x :: t, i + 1, n + 1 => by
    show x :: (t.set i a).take n = x :: (t.take n).set i a
    rw [take_set_comm a t i n]

/-- C6: a Ready frame whose stored checksum matches its payload, after any
single-byte corruption of the stored payload (a byte replaced by a different
byte), fails the checksum recomputation in `TryReadData`, so the read
reports failure rather than success. -/
theorem tryReadData_detects_corruption (s : ManagerState) (buffer : List Nat)
    (dataType width height i b2 : Nat)
    (hmagic : s.header.Magic = MAGIC)
    (hready : s.header.Status = statusReady)
    (hchk : s.header.Checksum = calculateChecksum (s.data.take s.header.DataSize))
    (hi : i < s.header.DataSize)
    (hidat : i < s.data.length)
    (hold : s.data.get ⟨i, hidat⟩ < 256) (hb2 : b2 < 256)
    (hne : b2 ≠ s.data.get ⟨i, hidat⟩) :
    calculateChecksum ((s.data.set i b2).take s.header.DataSize) ≠
      s.header.Checksum ∧
    (tryReadData { s with data := s.data.set i b2 } buffer dataType width height).ok
      = false := by
  have hlt : (256 : Nat) < U32 := by norm_num [U32]
  have hitake : i < (s.data.take s.header.DataSize).length := by
    rw [List.length_take]
    exact lt_min hi hidat
  have hgete : (s.data.take s.header.DataSize).get ⟨i, hitake⟩ = s.data.get ⟨i, hidat⟩ := by
    simp [List.get_take]
  have hmm : calculateChecksum ((s.data.set i b2).take s.header.DataSize) ≠
      s.header.Checksum := by
    rw [take_set_comm, hchk]
    have := calculateChecksum_set_ne (s.data.take s.header.DataSize) i b2 hitake
      (by rw [hgete]; exact hold.trans hlt) (hb2.trans hlt) (by rw [hgete]; exact hne)
    exact this
  refine ⟨hmm, ?_⟩
  unfold tryReadData
  rw [if_neg (by simp [hmagic]), if_neg (by simp [hready]), if_pos (by simpa using hmm)]

/-- Header of a concrete consistent Ready frame holding payload `[10, 20]`. -/
def writtenHeader : SharedMemoryHeader :=
  { Magic := MAGIC, Status := statusReady, DataSize := 2,
    Checksum := calculateChecksum [10, 20], FrameId := 1, DataType := 0,
    Width := 2, Height := 1, Reserved := 1, ErrorMsg := List.replicate 128 0 }

/-- A concrete consistent Ready state for the C6 witness: payload `[10, 20]`
with its correct stored checksum. -/
def writtenExample : ManagerState :=
  { header := writtenHeader, data := [10, 20], frameId := 1, capacity := 2 }

/-- Witness for C6 at `writtenExample`, corrupting byte 0 to 99. -/
theorem tryReadData_detects_corruption_witness :
    (writtenExample.header.Magic = MAGIC ∧
     writtenExample.header.Status = statusReady ∧
     writtenExample.header.Checksum =
       calculateChecksum (writtenExample.data.take writtenExample.header.DataSize) ∧
     0 < writtenExample.header.DataSize ∧
     0 < writtenExample.data.length ∧
     writtenExample.data.get ⟨0, by decide⟩ < 256 ∧
     (99 : Nat) < 256 ∧
     (99 : Nat) ≠ writtenExample.data.get ⟨0, by decide⟩) ∧
    (calculateChecksum ((writtenExample.data.set 0 99).take
        writtenExample.header.DataSize) ≠ writtenExample.header.Checksum ∧
     (tryReadData { writtenExample with data := writtenExample.data.set 0 99 }
        [] 0 0 0).ok = false) :=
  ⟨⟨by decide, by decide, by decide, by decide, by decide, by decide,
    by decide, by decide⟩,
   tryReadData_detects_corruption writtenExample [] 0 0 0 0 99
     (by decide) (by decide) (by decide) (by decide) (by decide)
     (by decide) (by decide) (by decide)⟩

/-! ### Write/read round trip (C1) and DataSize provenance (C2) -/

/-- Header produced by the success path of `WriteData`. -/
def postWriteHeader (s : ManagerState) (P : List Nat)
    (dataType width height channels dimensions size : Nat) : SharedMemoryHeader :=
  { Magic := s.header.Magic, Status := statusReady, DataSize := size % U32,
    Checksum := calculateChecksum (P.take size),
    FrameId := (s.frameId + 1) % U32, DataType := dataType,
    Width := width, Height := height,
    Reserved := if dataType = 0 then channels else dimensions,
    ErrorMsg := s.header.ErrorMsg }

/-- State produced by the success path of `WriteData`. -/
def postWriteState (s : ManagerState) (P : List Nat)
    (dataType width height channels dimensions size : Nat) : ManagerState :=
  { header := postWriteHeader s P dataType width height channels dimensions size,
    data := P.take size ++ s.data.drop size,
    frameId := (s.frameId + 1) % U32, capacity := s.capacity }

/-- `WriteData` succeeds on an Empty slot when the shape-implied size fits,
producing exactly `postWriteState`. -/
theorem writeData_success_eq (s : ManagerState) (P : List Nat)
    (dataType width height channels dimensions size : Nat)
    (hsize : calculateSize dataType width height channels dimensions = some size)
    (hcap : size ≤ s.capacity)
    (hempty : s.header.Status = statusEmpty) :
    writeData s P dataType width height channels dimensions =
      ⟨true, postWriteState s P dataType width height channels dimensions size⟩ := by
  unfold writeData
  simp only [hsize]
  rw [if_neg (show ¬s.capacity < size by omega),
    if_neg (show ¬s.header.Status ≠ statusEmpty by simp [hempty])]
  rfl

/-- C1 (amended): writing a payload `P` of the shape-implied size into an
Empty valid channel and then reading yields exactly `P` and the written
metadata triple, provided that size is below `2^32` (the stored `DataSize`
is the size truncated to `uint32_t`). -/
theorem write_then_read_roundtrip (s : ManagerState) (P : List Nat)
    (dataType width height channels dimensions size : Nat)
    (buffer : List Nat) (dt0 w0 h0 : Nat)
    (hmagic : s.header.Magic = MAGIC)
    (hempty : s.header.Status = statusEmpty)
    (hsize : calculateSize dataType width height channels dimensions = some size)
    (hcap : size ≤ s.capacity)
    (hlen : P.length = size)
    (hsmall : size < U32) :
    (writeData s P dataType width height channels dimensions).ok = true ∧
    (tryReadData (writeData s P dataType width height channels dimensions).state
      buffer dt0 w0 h0).ok = true ∧
    (tryReadData (writeData s P dataType width height channels dimensions).state
      buffer dt0 w0 h0).buffer = P ∧
    (tryReadData (writeData s P dataType width height channels dimensions).state
      buffer dt0 w0 h0).dataType = dataType ∧
    (tryReadData (writeData s P dataType width height channels dimensions).state
      buffer dt0 w0 h0).width = width ∧
    (tryReadData (writeData s P dataType width height channels dimensions).state
      buffer dt0 w0 h0).height = height := by
  rw [writeData_success_eq s P dataType width height channels dimensions size
    hsize hcap hempty]
  have hP : P.take size = P := by
    rw [← hlen, List.take_length]
  have hbuf2 : (P ++ List.drop size s.data).take (size % U32) = P := by
    rw [Nat.mod_eq_of_lt hsmall, ← hlen, List.take_left]
  have hbuf : (postWriteState s P dataType width height channels dimensions size).data.take
      ((postWriteState s P dataType width height channels dimensions size).header.DataSize) = P := by
    simp only [postWriteState, postWriteHeader, hP]
    exact hbuf2
  constructor
  · rfl
  unfold tryReadData
  rw [if_neg (by simp [postWriteState, postWriteHeader, hmagic]),
    if_neg (by simp [postWriteState, postWriteHeader]),
    if_neg (by
      simp only [postWriteState, postWriteHeader, hP]
      rw [hbuf2]
      simp)]
  exact ⟨rfl, hbuf, rfl, rfl, rfl⟩

/-- Witness for C1 (amended) at a concrete 3-byte image write. -/
theorem write_then_read_roundtrip_witness :
    ((initState 4).header.Magic = MAGIC ∧
     (initState 4).header.Status = statusEmpty ∧
     calculateSize 0 3 1 1 3 = some 3 ∧
     3 ≤ (initState 4).capacity ∧
     ([1, 2, 3] : List Nat).length = 3 ∧
     3 < U32) ∧
    ((writeData (initState 4) [1, 2, 3] 0 3 1 1 3).ok = true ∧
     (tryReadData (writeData (initState 4) [1, 2, 3] 0 3 1 1 3).state [] 0 0 0).ok = true ∧
     (tryReadData (writeData (initState 4) [1, 2, 3] 0 3 1 1 3).state [] 0 0 0).buffer = [1, 2, 3] ∧
     (tryReadData (writeData (initState 4) [1, 2, 3] 0 3 1 1 3).state [] 0 0 0).dataType = 0 ∧
     (tryReadData (writeData (initState 4) [1, 2, 3] 0 3 1 1 3).state [] 0 0 0).width = 3 ∧
     (tryReadData (writeData (initState 4) [1, 2, 3] 0 3 1 1 3).state [] 0 0 0).height = 1) :=
  ⟨⟨by decide, by decide, by decide, by decide, by decide, by decide⟩,
   write_then_read_roundtrip (initState 4) [1, 2, 3] 0 3 1 1 3 3 [] 0 0 0
     (by decide) (by decide) (by decide) (by decide) (by decide) (by decide)⟩

/-- `CalculateChecksum` of an all-zero payload is 0. -/
theorem calculateChecksum_replicate_zero (n : Nat) :
    calculateChecksum (List.replicate n 0) = 0 := by
  show checksumFrom 0 (List.replicate n 0) = 0
  induction n with
  | zero => rfl
  | succ k ih =>
    rw [List.replicate_succ, checksumFrom_cons]
    have h0 : checksumStep 0 0 = 0 := by decide
    rw [h0]
    exact ih

/-- Header left behind by the `2^32`-byte point-cloud write of the C1
counterexample: `DataSize = (uint32_t)2^32 = 0`. -/
def truncHeader : SharedMemoryHeader :=
  { Magic := MAGIC, Status := statusReady, DataSize := 0, Checksum := 0,
    FrameId := 1, DataType := 1, Width := 1073741824, Height := 1,
    Reserved := 1, ErrorMsg := List.replicate 128 0 }

/-- State left behind by the `2^32`-byte point-cloud write of the C1
counterexample. -/
def truncState : ManagerState :=
  { header := truncHeader, data := List.replicate U32 0, frameId := 1, capacity := U32 }

/-- The post-write state of the C1 counterexample equals `truncState`:
`DataSize` truncates to 0 and the all-zero payload has checksum 0. -/
theorem postWriteState_trunc_eq :
    postWriteState (initState U32) (List.replicate U32 0) 1 1073741824 1 1 1 U32 =
      truncState := by
  have e0 : (initState U32).data = List.replicate U32 0 := rfl
  have e0b : (initState U32).frameId = 0 := rfl
  have e0c : (initState U32).capacity = U32 := rfl
  have e0d : (initState U32).header.Magic = MAGIC := rfl
  have e0e : (initState U32).header.ErrorMsg = List.replicate 128 0 := rfl
  have e1 : List.take U32 (List.replicate U32 (0 : Nat)) = List.replicate U32 0 := by
    rw [List.take_replicate, min_self]
  have e2 : List.drop U32 ((initState U32)).data = [] := by
    rw [e0, List.drop_replicate, Nat.sub_self]
    rfl
  have e5 : ((initState U32).frameId + 1) % U32 = 1 := by
    rw [e0b]
    norm_num [U32]
  unfold postWriteState postWriteHeader truncState truncHeader
  rw [e1, e2, calculateChecksum_replicate_zero, Nat.mod_self, List.append_nil,
    ite_self, e5, e0c, e0d, e0e]

/-- C1 counterexample: a point-cloud payload of exactly `2^32` bytes
(width `2^30` points, `dimensions = 1`) into a channel of capacity `2^32`.
The write succeeds, the copy and the stored checksum cover all `2^32` bytes,
but `DataSize = (uint32_t)size` truncates to 0, so the subsequent read also
"succeeds" — returning an empty buffer instead of the written payload. -/
theorem write_then_read_roundtrip_counterexample :
    (writeData (initState U32) (List.replicate U32 0) 1 1073741824 1 1 1).ok = true ∧
    (tryReadData (writeData (initState U32) (List.replicate U32 0) 1 1073741824 1 1 1).state
      [] 0 0 0).ok = true ∧
    (tryReadData (writeData (initState U32) (List.replicate U32 0) 1 1073741824 1 1 1).state
      [] 0 0 0).buffer ≠ List.replicate U32 0 := by
  have hsize : calculateSize 1 1073741824 1 1 1 = some U32 := by
    norm_num [calculateSize, U32, U64]
  have hcap : U32 ≤ (initState U32).capacity := le_refl _
  have hempty : (initState U32).header.Status = statusEmpty := rfl
  rw [writeData_success_eq (initState U32) (List.replicate U32 0) 1 1073741824 1 1 1 U32
    hsize hcap hempty, postWriteState_trunc_eq]
  refine ⟨rfl, rfl, ?_⟩
  intro h
  have h2 : ([] : List Nat) = List.replicate U32 0 := h
  have h3 := congrArg List.length h2
  rw [List.length_nil, List.length_replicate] at h3
  exact absurd h3 (by norm_num [U32])

/-- C2 (amended): the stored `DataSize` of every successful write equals the
size computed from `dataType` and the shape arguments (truncated to
`uint32_t`), independent of the payload; for a point cloud that size is
`width * 4 * dimensions` — the `dimensions` argument (stored in `Reserved`),
not `height`. -/
theorem dataSize_from_shape (s : ManagerState) (P : List Nat)
    (dataType width height channels dimensions size : Nat)
    (hsize : calculateSize dataType width height channels dimensions = some size)
    (hok : (writeData s P dataType width height channels dimensions).ok = true) :
    (writeData s P dataType width height channels dimensions).state.header.DataSize =
      size % U32 ∧
    (dataType = 1 →
      (writeData s P dataType width height channels dimensions).state.header.DataSize =
        width * 4 * dimensions % U64 % U32) := by
  by_cases h1 : s.capacity < size
  · exfalso
    unfold writeData at hok
    simp only [hsize] at hok
    rw [if_pos h1] at hok
    simp at hok
  by_cases h2 : s.header.Status ≠ statusEmpty
  · exfalso
    unfold writeData at hok
    simp only [hsize] at hok
    rw [if_neg h1, if_pos h2] at hok
    simp at hok
  rw [writeData_success_eq s P dataType width height channels dimensions size hsize
    (le_of_not_lt h1) (not_ne_iff.mp h2)]
  refine ⟨rfl, fun hdt => ?_⟩
  subst hdt
  have hsize1 : width * 4 * dimensions % U64 = size := by
    simpa [calculateSize] using hsize
  show size % U32 = width * 4 * dimensions % U64 % U32
  rw [hsize1]

/-- Witness for C2 (amended) at a concrete point-cloud write with
`width = 2`, `height = 5`, `dimensions = 3`. -/
theorem dataSize_from_shape_witness :
    (calculateSize 1 2 5 1 3 = some 24 ∧
     (writeData (initState 100) (List.replicate 24 0) 1 2 5 1 3).ok = true) ∧
    ((writeData (initState 100) (List.replicate 24 0) 1 2 5 1 3).state.header.DataSize =
       24 % U32 ∧
     ((1 : Nat) = 1 →
       (writeData (initState 100) (List.replicate 24 0) 1 2 5 1 3).state.header.DataSize =
         2 * 4 * 3 % U64 % U32)) :=
  ⟨⟨by decide, by decide⟩,
   dataSize_from_shape (initState 100) (List.replicate 24 0) 1 2 5 1 3 24
     (by decide) (by decide)⟩

/-- C2 counterexample: a successful point-cloud write with `width = 2`,
`height = 5`, `dimensions = 3` stores `DataSize = 24 = width*4*dimensions`,
not `width*height*4 = 40`. -/
theorem dataSize_counterexample :
    (writeData (initState 100) (List.replicate 24 0) 1 2 5 1 3).ok = true ∧
    (writeData (initState 100) (List.replicate 24 0) 1 2 5 1 3).state.header.DataSize = 24 ∧
    (2 : Nat) * 5 * 4 = 40 ∧ (24 : Nat) ≠ 40 := by
  refine ⟨by decide, by decide, by decide, by decide⟩

/-! ### FrameId across operation sequences (C5) -/

/-- One client operation on a channel instance: a `WriteData` call with its
arguments, or a `TryReadData` call. -/
inductive Op where
  | write (data : List Nat) (dataType width height channels dimensions : Nat)
  | read

/-- The manager state after one operation. -/
def stepOp (s : ManagerState) : Op → ManagerState
  | Op.write d dt w h c dims => (writeData s d dt w h c dims).state
  | Op.read => (tryReadData s [] 0 0 0).state

/-- Whether an operation is a successful write. -/
def opSucceedsWrite (s : ManagerState) : Op → Bool
  | Op.write d dt w h c dims => (writeData s d dt w h c dims).ok
  | Op.read => false

/-- The header `FrameId` values published by the successful writes of an
operation sequence, in order. -/
def pubFrameIds : ManagerState → List Op → List Nat
  | _, [] => []
  | s, op :: rest =>
    if opSucceedsWrite s op
    then (stepOp s op).header.FrameId :: pubFrameIds (stepOp s op) rest
    else pubFrameIds (stepOp s op) rest

/-- The number of successful writes in an operation sequence. -/
def countSuccWrites : ManagerState → List Op → Nat
  | _, [] => 0
  | s, op :: rest =>
    (if opSucceedsWrite s op then 1 else 0) + countSuccWrites (stepOp s op) rest

/-- A failed `WriteData` leaves the state unchanged. -/
theorem writeData_not_ok_state (s : ManagerState) (data : List Nat)
    (dataType width height channels dimensions : Nat)
    (h : (writeData s data dataType width height channels dimensions).ok = false) :
    (writeData s data dataType width height channels dimensions).state = s := by
  unfold writeData at h ⊢
  cases hcs : calculateSize dataType width height channels dimensions with
  | none => simp only [hcs]
  | some size =>
    simp only [hcs] at h ⊢
    split_ifs at h ⊢ <;> rfl

/-- `TryReadData` never changes the header `FrameId` nor `m_frameId`. -/
theorem tryReadData_frameId (s : ManagerState) (buffer : List Nat)
    (dataType width height : Nat) :
    (tryReadData s buffer dataType width height).state.header.FrameId =
      s.header.FrameId ∧
    (tryReadData s buffer dataType width height).state.frameId = s.frameId := by
  unfold tryReadData
  split_ifs <;> exact ⟨rfl, rfl⟩

/-- A successful `WriteData` publishes `FrameId = (m_frameId + 1) mod 2^32`
and stores the same value back into `m_frameId`. -/
theorem writeData_ok_frameId (s : ManagerState) (data : List Nat)
    (dataType width height channels dimensions : Nat)
    (h : (writeData s data dataType width height channels dimensions).ok = true) :
    (writeData s data dataType width height channels dimensions).state.header.FrameId =
      (s.frameId + 1) % U32 ∧
    (writeData s data dataType width height channels dimensions).state.frameId =
      (s.frameId + 1) % U32 := by
  unfold writeData at h ⊢
  cases hcs : calculateSize dataType width height channels dimensions with
  | none => rw [hcs] at h; simp at h
  | some size =>
    simp only [hcs] at h ⊢
    split_ifs at h ⊢ <;> exact ⟨rfl, rfl⟩

/-- The published FrameId sequence: if `m_frameId` currently represents the
count `c` (mod `2^32`), the next writes publish `c+1, c+2, …` (mod `2^32`). -/
theorem pubFrameIds_spec : ∀ (ops : List Op) (s : ManagerState) (c : Nat),
    s.frameId = c % U32 →
    pubFrameIds s ops =
      (List.range (countSuccWrites s ops)).map (fun k => (c + k + 1) % U32) := by
  intro ops
  induction ops with
  | nil => intro s c hc; rfl
  | cons op rest ih =>
    intro s c hc
    cases op with
    | read =>
      have hstep : (stepOp s Op.read).frameId = c % U32 := by
        rw [stepOp, (tryReadData_frameId s [] 0 0 0).2, hc]
      simp only [pubFrameIds, countSuccWrites, opSucceedsWrite]
      rw [if_neg Bool.false_ne_true, if_neg Bool.false_ne_true, Nat.zero_add]
      exact ih _ _ hstep
    | write d dt w h ch dims =>
      cases hok : (writeData s d dt w h ch dims).ok with
      | false =>
        have hst : stepOp s (Op.write d dt w h ch dims) = s := by
          rw [stepOp]
          exact writeData_not_ok_state s d dt w h ch dims hok
        have hnot : ¬((writeData s d dt w h ch dims).ok = true) := by
          rw [hok]
          exact Bool.false_ne_true
        simp only [pubFrameIds, countSuccWrites, opSucceedsWrite]
        rw [if_neg hnot, if_neg hnot, Nat.zero_add, hst]
        exact ih s c hc
      | true =>
        have hfid := writeData_ok_frameId s d dt w h ch dims hok
        have hstep : (stepOp s (Op.write d dt w h ch dims)).frameId = (c + 1) % U32 := by
          rw [stepOp, hfid.2, hc, Nat.mod_add_mod]
        have hhd : (stepOp s (Op.write d dt w h ch dims)).header.FrameId = (c + 1) % U32 := by
          rw [stepOp, hfid.1, hc, Nat.mod_add_mod]
        simp only [pubFrameIds, countSuccWrites, opSucceedsWrite]
        rw [if_pos hok, if_pos hok, hhd, ih _ _ hstep,
          Nat.add_comm 1 (countSuccWrites (stepOp s (Op.write d dt w h ch dims)) rest),
          List.range_succ_eq_map, List.map_cons, List.map_map]
        congr 1
        refine List.map_congr_left (fun a ha => ?_)
        simp only [Function.comp_apply]
        congr 1
        omega

/-- C5 (amended): across any operation sequence from a fresh channel with
fewer than `2^32` successful writes, the FrameIds published in the header by
the successful writes are strictly increasing; failed writes and reads
(successful or not) never change the header FrameId.  (`m_frameId` is a
wrapping `uint32_t`, so strictness holds only below `2^32` writes.) -/
theorem frameId_strictly_increasing (cap : Nat) (ops : List Op)
    (hcount : countSuccWrites (initState cap) ops < U32) :
    List.Pairwise (· < ·) (pubFrameIds (initState cap) ops) ∧
    (∀ (s : ManagerState) (d : List Nat) (dt w h c dims : Nat),
      (writeData s d dt w h c dims).ok = false →
      (writeData s d dt w h c dims).state.header.FrameId = s.header.FrameId) ∧
    (∀ (s : ManagerState) (b : List Nat) (dt w h : Nat),
      (tryReadData s b dt w h).state.header.FrameId = s.header.FrameId) := by
  refine ⟨?_, ?_, ?_⟩
  · have hinit : (initState cap).frameId = 0 % U32 := by
      rw [Nat.zero_mod]
      rfl
    rw [pubFrameIds_spec ops (initState cap) 0 hinit, List.pairwise_map]
    refine List.Pairwise.imp_of_mem (fun {a b} ha hb hab => ?_)
      (List.pairwise_lt_range _)
    have ha1 := List.mem_range.mp ha
    have hb1 := List.mem_range.mp hb
    rw [Nat.mod_eq_of_lt (by omega), Nat.mod_eq_of_lt (by omega)]
    omega
  · intro s d dt w h c dims hfail
    rw [writeData_not_ok_state s d dt w h c dims hfail]
  · intro s b dt w h
    exact (tryReadData_frameId s b dt w h).1

/-- Witness for C5 (amended) at a one-write trace. -/
theorem frameId_strictly_increasing_witness :
    countSuccWrites (initState 0) [Op.write [] 0 0 0 1 3] < U32 ∧
    (List.Pairwise (· < ·) (pubFrameIds (initState 0) [Op.write [] 0 0 0 1 3]) ∧
     (∀ (s : ManagerState) (d : List Nat) (dt w h c dims : Nat),
       (writeData s d dt w h c dims).ok = false →
       (writeData s d dt w h c dims).state.header.FrameId = s.header.FrameId) ∧
     (∀ (s : ManagerState) (b : List Nat) (dt w h : Nat),
       (tryReadData s b dt w h).state.header.FrameId = s.header.FrameId)) :=
  ⟨by decide, frameId_strictly_increasing 0 [Op.write [] 0 0 0 1 3] (by decide)⟩

/-- The trace of the C5 counterexample: `n` write/read pairs, each writing a
zero-sized image frame and immediately consuming it. -/
def wrRdTrace : Nat → List Op
  | 0 => []
  | n + 1 => Op.write [] 0 0 0 1 3 :: Op.read :: wrRdTrace n

/-- A zero-sized image write always succeeds on an Empty slot. -/
theorem zeroWrite_eq (s : ManagerState) (hempty : s.header.Status = statusEmpty) :
    writeData s [] 0 0 0 1 3 = ⟨true, postWriteState s [] 0 0 0 1 3 0⟩ :=
  writeData_success_eq s [] 0 0 0 1 3 0 (by simp [calculateSize]) (Nat.zero_le _) hempty

/-- Reading right after a zero-sized write succeeds and empties the slot. -/
theorem read_state_zeroWrite (s : ManagerState) (hmagic : s.header.Magic = MAGIC) :
    (tryReadData (postWriteState s [] 0 0 0 1 3 0) [] 0 0 0).state.header.Status =
      statusEmpty ∧
    (tryReadData (postWriteState s [] 0 0 0 1 3 0) [] 0 0 0).state.header.Magic =
      MAGIC := by
  unfold tryReadData
  rw [if_neg (by exact fun h => h hmagic), if_neg (by exact fun h => h rfl),
    if_neg (by exact fun h => h rfl)]
  exact ⟨rfl, hmagic⟩

/-- Every write/read pair of `wrRdTrace` performs one successful write. -/
theorem countSuccWrites_wrRdTrace : ∀ (n : Nat) (s : ManagerState),
    s.header.Magic = MAGIC → s.header.Status = statusEmpty →
    countSuccWrites s (wrRdTrace n) = n := by
  intro n
  induction n with
  | zero => intro s _ _; rfl
  | succ k ih =>
    intro s hmagic hempty
    show countSuccWrites s (Op.write [] 0 0 0 1 3 :: Op.read :: wrRdTrace k) = k + 1
    have hread := read_state_zeroWrite s hmagic
    simp only [countSuccWrites, opSucceedsWrite, stepOp, zeroWrite_eq s hempty]
    rw [ih _ hread.2 hread.1, if_pos trivial, if_neg Bool.false_ne_true]
    omega

/-- C5 counterexample: after `2^32` successful writes (each drained by a
read), the published FrameId wraps from `2^32 - 1` to `0`, so the sequence
of published FrameIds is not strictly increasing. -/
theorem frameId_wraparound_counterexample :
    ¬ List.Pairwise (· < ·) (pubFrameIds (initState 0) (wrRdTrace U32)) := by
  have hcount : countSuccWrites (initState 0) (wrRdTrace U32) = U32 :=
    countSuccWrites_wrRdTrace U32 (initState 0) rfl rfl
  have hinit : (initState 0).frameId = 0 % U32 := by
    rw [Nat.zero_mod]
    rfl
  rw [pubFrameIds_spec (wrRdTrace U32) (initState 0) 0 hinit, hcount]
  intro hp
  have hlen : ((List.range U32).map (fun k => (0 + k + 1) % U32)).length = U32 := by
    rw [List.length_map, List.length_range]
  have h1 : U32 - 2 < ((List.range U32).map (fun k => (0 + k + 1) % U32)).length := by
    rw [hlen]; norm_num [U32]
  have h2 : U32 - 1 < ((List.range U32).map (fun k => (0 + k + 1) % U32)).length := by
    rw [hlen]; norm_num [U32]
  have h3 : U32 - 2 < U32 - 1 := by norm_num [U32]
  have hpg := List.pairwise_iff_getElem.mp hp (U32 - 2) (U32 - 1) h1 h2 h3
  rw [List.getElem_map, List.getElem_range, List.getElem_map, List.getElem_range] at hpg
  norm_num [U32] at hpg

end ShareMemory
